import Mathlib

/-
Shallow embedding of the ESP32Console REPL engine
(src/src/ESP32Console/Console.cpp).

The engine's interactions with its collaborators (linenoise, the UART
driver, the VFS layer, stdio, FreeRTOS) are recorded as a trace of
`Event`s.  The REPL loop body, startup sequence and state-reset helper
are translated from the source; the external dispatcher
(`esp_console_run`), tokenizer and error-name table, whose code is not
in this repository, are modelled from the spec.
-/

namespace ESP32Console

/-- Observable actions of the console engine.  Each constructor records one
call the engine makes into a collaborator (linenoise, UART driver, VFS,
stdio, task creation) or one internal step of the REPL loop in
`Console.cpp`. -/
inductive Event where
  | logError (msg : String)
  | flushStdout
  | setStdinUnbuffered
  | setRxLineEndings (channel : Nat)
  | setTxLineEndings (channel : Nat)
  | installUartDriver (channel : Nat)
  | configUartParams (channel : Nat)
  | useUartDriver (channel : Nat)
  | consoleSetup
  | reopenStdStreams (path : String)
  | setCompletionCallback
  | setHintsCallback
  | setMaxHistoryLen (n : Nat)
  | setMaxLineLen (n : Nat)
  | historyLoad (path : String)
  | registerHelpCommand
  | registerCoreCommands
  | createReplTask
  | readLine (prompt : String)
  | historyAdd (line : String)
  | historySave (path : String)
  | dispatch (line : String)
  | runCallback (name : String) (args : List String)
  | resetOptind
  | print (msg : String)
  | freeLine
deriving DecidableEq

/-- The `esp_err_t` outcomes the REPL loop in `repl_task` distinguishes:
`ESP_OK`, `ESP_ERR_INVALID_ARG` (empty line), `ESP_ERR_NOT_FOUND`
(unregistered command) and any other error code. -/
inductive EspErr where
  | ok
  | invalidArg
  | notFound
  | other (code : Int)
deriving DecidableEq

/-- Numeric `esp_err_t` value of each modelled outcome. -/
def errCode : EspErr → Int
  | .ok => 0
  | .invalidArg => 0x102
  | .notFound => 0x105
  | .other c => c

/-- Modelled from the spec: the symbolic-name table of the external
`esp_err_to_name` collaborator (its source is not in this repository).
Known status codes map to their symbolic names, anything else to the
unknown-error marker. -/
def espErrToName (code : Int) : String :=
  if code = 0 then "ESP_OK"
  else if code = -1 then "ESP_FAIL"
  else if code = 0x101 then "ESP_ERR_NO_MEM"
  else if code = 0x102 then "ESP_ERR_INVALID_ARG"
  else if code = 0x103 then "ESP_ERR_INVALID_STATE"
  else if code = 0x104 then "ESP_ERR_INVALID_SIZE"
  else if code = 0x105 then "ESP_ERR_NOT_FOUND"
  else if code = 0x106 then "ESP_ERR_NOT_SUPPORTED"
  else if code = 0x107 then "ESP_ERR_TIMEOUT"
  else if code = 0x108 then "ESP_ERR_INVALID_RESPONSE"
  else if code = 0x109 then "ESP_ERR_INVALID_CRC"
  else "UNKNOWN ERROR"

/-- Rendering of an `int` by printf's `%x` conversion: lowercase hex of the
value reinterpreted as an unsigned 32-bit quantity. -/
def hexStr (n : Int) : String :=
  String.mk (Nat.toDigits 16 (n % 4294967296).toNat)

/-- The message printed by `repl_task` when a command callback returns a
non-zero status: `"Command returned non-zero error code: 0x%x (%s)\n"`. -/
def nonZeroMsg (ret : Int) : String :=
  "Command returned non-zero error code: 0x" ++ hexStr ret ++ " (" ++
    espErrToName ret ++ ")\n"

/-- Whitespace for command-line tokenization. -/
def isWs (c : Char) : Bool :=
  c = ' ' || c = '\t'

/-- Splits a character list into whitespace-separated tokens; `acc` holds the
characters of the token currently being read, in reverse. -/
def tokensAux : List Char → List Char → List String
  | [], acc => if acc.isEmpty then [] else [String.mk acc.reverse]
  | c :: rest, acc =>
    if isWs c then
      if acc.isEmpty then tokensAux rest []
      else String.mk acc.reverse :: tokensAux rest []
    else tokensAux rest (c :: acc)

/-- Modelled from the spec: the argument tokenization of the external
dispatcher (`esp_console_split_argv`, not in this repository) — the line is
split into whitespace-separated tokens, the first being the command name. -/
def tokenize (line : String) : List String :=
  tokensAux line.toList []

/-- A registered command callback: argument vector in, integer status out. -/
def Callback : Type :=
  List String → Int

/-- Modelled from the spec: the external dispatcher `esp_console_run` (its
source is not in this repository).  A line with no tokens yields
`ESP_ERR_INVALID_ARG`; a leading token matching no registered name yields
`ESP_ERR_NOT_FOUND`; otherwise the matching descriptor's callback is invoked
with the argument vector and its status is returned with `ESP_OK`.  The third
component records the callback invocation, if any. -/
def espConsoleRun (reg : List (String × Callback)) (line : String) :
    EspErr × Int × List Event :=
  match tokenize line with
  | [] => (.invalidArg, 0, [])
  | cmd :: rest =>
    match List.find? (fun p => p.1 == cmd) reg with
    | none => (.notFound, 0, [])
    | some pr => (.ok, pr.2 (cmd :: rest), [Event.runCallback cmd (cmd :: rest)])

/-- The outcome-classification chain of `repl_task` (Console.cpp lines
221–236): `ESP_ERR_NOT_FOUND` prints the unrecognized-command notice,
`ESP_ERR_INVALID_ARG` (empty command) prints nothing, `ESP_OK` with a
non-zero callback status prints the non-zero-code message, any other error
prints the internal-error message. -/
def classifyMsgs (err : EspErr) (ret : Int) : List Event :=
  if err = EspErr.notFound then [Event.print "Unrecognized command\n"]
  else if err = EspErr.invalidArg then []
  else if err = EspErr.ok ∧ ret ≠ 0 then [Event.print (nonZeroMsg ret)]
  else if err ≠ EspErr.ok then
    [Event.print ("Internal error: " ++ espErrToName (errCode err) ++ "\n")]
  else []

/-- The console configuration read by `begin`/`beginCommon`/`repl_task`:
prompt template `prompt_`, current working directory (result of the external
`console_getpwd`), optional history file path `history_save_path_`, the
command registry, and the `max_history_len_`/`max_cmdline_len_` knobs. -/
structure Cfg where
  prompt : String
  pwd : String
  historySavePath : Option String
  registry : List (String × Callback)
  maxHistoryLen : Nat
  maxCmdlineLen : Nat

/-- History-persistence step of the loop body: `linenoiseHistorySave` is
called exactly when a history path is configured (Console.cpp lines
209–212). -/
def saveEvents : Option String → List Event
  | some p => [Event.historySave p]
  | none => []

/-- The helper `resetAfterCommands` (Console.cpp lines 151–157): resets the
process-wide getopt cursor `optind` to 0, whatever value a command callback
left it at. -/
def resetAfterCommands (_optind : Int) : Int :=
  0

/-- Arduino `String::replace` specialised to the pattern `"%pwd%"`: every
occurrence of the pattern is replaced by `rep`, scanning left to right.
Modelled from the spec: the `String::replace` collaborator's source is not
in this repository. -/
def promptReplace (rep : List Char) : List Char → List Char
  | '%' :: 'p' :: 'w' :: 'd' :: '%' :: rest => rep ++ promptReplace rep rest
  | c :: rest => c :: promptReplace rep rest
  | [] => []

/-- Whether a character list contains the literal token `"%pwd%"`. -/
def hasPwdTok : List Char → Bool
  | '%' :: 'p' :: 'w' :: 'd' :: '%' :: _ => true
  | _ :: rest => hasPwdTok rest
  | [] => false

/-- Prompt rendering in the loop body (Console.cpp lines 190–193):
`prompt.replace("%pwd%", console_getpwd())`. -/
def renderPrompt (template pwd : String) : String :=
  String.mk (promptReplace pwd.toList template.toList)

/-- One iteration of the `while (1)` loop of `repl_task` (Console.cpp lines
188–239).  `optind` is the getopt cursor at the start of the iteration;
`input` is what `linenoise` returned (`none` for the NULL early-`continue`
path); `cbOptind` is the cursor value a command callback leaves behind when
one runs.  Returns the iteration's event trace and the cursor value at the
end of the iteration. -/
def replIteration (cfg : Cfg) (optind : Int) (input : Option String)
    (cbOptind : Int) : List Event × Int :=
  match input with
  | none => ([Event.readLine (renderPrompt cfg.prompt cfg.pwd)], optind)
  | some line =>
    let r := espConsoleRun cfg.registry line
    (Event.readLine (renderPrompt cfg.prompt cfg.pwd)
       :: Event.historyAdd line
       :: saveEvents cfg.historySavePath
       ++ Event.dispatch line
       :: r.2.2
       ++ Event.resetOptind
       :: classifyMsgs r.1 r.2.1
       ++ [Event.freeLine],
     resetAfterCommands (if r.2.2.isEmpty then optind else cbOptind))

/-- The REPL loop run over a finite schedule of inputs: each schedule entry
gives the `linenoise` result and the cursor value the dispatched callback
(if any) would leave behind. -/
def replRun (cfg : Cfg) (optind : Int) :
    List (Option String × Int) → List Event
  | [] => []
  | (l, co) :: rest =>
    (replIteration cfg optind l co).1 ++
      replRun cfg (replIteration cfg optind l co).2 rest

/-- The getopt-cursor value at the start of each loop iteration of a run. -/
def iterationStartStates (cfg : Cfg) (optind : Int) :
    List (Option String × Int) → List Int
  | [] => []
  | (l, co) :: rest =>
    optind ::
      iterationStartStates cfg (replIteration cfg optind l co).2 rest

/-- History-loading step of startup: `linenoiseHistoryLoad` is called
exactly when a history path is configured (Console.cpp lines 67–71). -/
def loadEvents : Option String → List Event
  | some p => [Event.historyLoad p]
  | none => []

/-- The startup helper `Console::beginCommon` (Console.cpp lines 55–76):
wire completion and
hint callbacks, set history and line-length bounds, load history exactly
when a path is configured, register the help command and the core command
group. -/
def beginCommonTrace (cfg : Cfg) : List Event :=
  [Event.setCompletionCallback, Event.setHintsCallback,
   Event.setMaxHistoryLen cfg.maxHistoryLen,
   Event.setMaxLineLen cfg.maxCmdlineLen]
  ++ loadEvents cfg.historySavePath
  ++ [Event.registerHelpCommand, Event.registerCoreCommands]

/-- The error logged by `begin` on an out-of-range channel (source wording
kept verbatim, with the `%u` argument `SOC_UART_NUM - 1` substituted). -/
def invalidChannelMsg (socUartNum : Nat) : String :=
  "Serial number is invalid, please use numers from 0 to " ++
    toString (socUartNum - 1)

/-- The device path built by `begin` for stream redirection:
`snprintf(path, 12, "/dev/uart/%d", channel)` — the formatted string
truncated to 11 characters. -/
def uartPath (channel : Nat) : String :=
  ("/dev/uart/" ++ toString channel).take 11

/-- The startup routine `Console::begin` (Console.cpp lines 78–149) as an
event trace.
`socUartNum` is the platform constant `SOC_UART_NUM`, `defaultChannel` the
compiled-in `CONFIG_ESP_CONSOLE_UART_NUM`.  An out-of-range channel logs an
error and does nothing else; otherwise stdio is drained and unbuffered, the
UART is configured and installed, the console library is set up, the
standard streams are reopened on the channel-derived device path exactly
when the channel is not the default, `beginCommon` runs, and the REPL task
is created. -/
def begin (socUartNum defaultChannel : Nat) (cfg : Cfg) (channel : Nat) :
    List Event :=
  if socUartNum ≤ channel then
    [Event.logError (invalidChannelMsg socUartNum)]
  else
    [Event.flushStdout, Event.setStdinUnbuffered,
     Event.setRxLineEndings channel, Event.setTxLineEndings channel,
     Event.installUartDriver channel, Event.configUartParams channel,
     Event.useUartDriver channel, Event.consoleSetup]
    ++ (if channel ≠ defaultChannel then
          [Event.reopenStdStreams (uartPath channel)]
        else [])
    ++ beginCommonTrace cfg
    ++ [Event.createReplTask]

/-- Whether an event is a printed message. -/
def isPrint : Event → Bool
  | .print _ => true
  | _ => false

/-- Whether an event is a command-callback invocation. -/
def isRunCallback : Event → Bool
  | .runCallback _ _ => true
  | _ => false

/-- Whether an event is a history append. -/
def isHistoryAdd : Event → Bool
  | .historyAdd _ => true
  | _ => false

/-- Whether an event is a history-file write. -/
def isHistorySave : Event → Bool
  | .historySave _ => true
  | _ => false

/-- Whether an event is a history-file read. -/
def isHistoryLoad : Event → Bool
  | .historyLoad _ => true
  | _ => false

/-- Whether an event is a standard-stream reopening. -/
def isReopen : Event → Bool
  | .reopenStdStreams _ => true
  | _ => false

/-- The printed messages of a trace. -/
def printsOf (tr : List Event) : List Event :=
  tr.filter isPrint

/-- The callback invocations of a trace. -/
def callbacksOf (tr : List Event) : List Event :=
  tr.filter isRunCallback

/-- The history appends of a trace. -/
def historyAddsOf (tr : List Event) : List Event :=
  tr.filter isHistoryAdd

/-- The history-file writes of a trace. -/
def historySavesOf (tr : List Event) : List Event :=
  tr.filter isHistorySave

/-- The history-file reads of a trace. -/
def historyLoadsOf (tr : List Event) : List Event :=
  tr.filter isHistoryLoad

/-- The standard-stream reopenings of a trace. -/
def reopensOf (tr : List Event) : List Event :=
  tr.filter isReopen

/-- Whether an event is the getopt-cursor reset. -/
def isReset : Event → Bool
  | .resetOptind => true
  | _ => false

/-- Whether an event is a line read. -/
def isReadLine : Event → Bool
  | .readLine _ => true
  | _ => false

/-- The cursor resets of a trace. -/
def resetsOf (tr : List Event) : List Event :=
  tr.filter isReset

/-- The line reads of a trace. -/
def readsOf (tr : List Event) : List Event :=
  tr.filter isReadLine

/-- A concrete configuration used to evaluate the theorems on explicit
inputs: prompt with a working-directory token, a configured history path,
and one registered command `boom` whose callback returns status 7. -/
def cfgW : Cfg :=
  ⟨"%pwd% > ", "/data", some "/spiffs/history.txt",
   [("boom", fun _ => 7)], 10, 256⟩

/-- The same configuration without a history path and with an empty
registry. -/
def cfgN : Cfg :=
  ⟨"> ", "/", none, [], 10, 256⟩

theorem saveEvents_filter (o : Option String) (p : Event → Bool)
    (hp : ∀ s, p (Event.historySave s) = false) :
    (saveEvents o).filter p = [] := by
  cases o <;> simp [saveEvents, List.filter_cons, List.filter_nil, hp]

theorem saveEvents_all_save (o : Option String) :
    ∀ e ∈ saveEvents o, isHistorySave e = true := by
  cases o <;> simp [saveEvents, isHistorySave]

theorem espConsoleRun_all_callback (reg : List (String × Callback))
    (line : String) :
    ∀ e ∈ (espConsoleRun reg line).2.2, isRunCallback e = true := by
  cases h : tokenize line with
  | nil => simp [espConsoleRun, h]
  | cons cmd rest =>
    cases hf : List.find? (fun p => p.1 == cmd) reg with
    | none => simp [espConsoleRun, h, hf]
    | some pr => simp [espConsoleRun, h, hf, isRunCallback]

theorem espConsoleRun_filter (reg : List (String × Callback)) (line : String)
    (p : Event → Bool) (hp : ∀ n a, p (Event.runCallback n a) = false) :
    ((espConsoleRun reg line).2.2).filter p = [] := by
  cases h : tokenize line with
  | nil => simp [espConsoleRun, h]
  | cons cmd rest =>
    cases hf : List.find? (fun p => p.1 == cmd) reg with
    | none => simp [espConsoleRun, h, hf]
    | some pr =>
      simp [espConsoleRun, h, hf, List.filter_cons, List.filter_nil, hp]

theorem classifyMsgs_all_print (err : EspErr) (ret : Int) :
    ∀ e ∈ classifyMsgs err ret, isPrint e = true := by
  rw [classifyMsgs]
  repeat' split
  all_goals simp [isPrint]

theorem classifyMsgs_filter (err : EspErr) (ret : Int) (p : Event → Bool)
    (hp : ∀ m, p (Event.print m) = false) :
    (classifyMsgs err ret).filter p = [] := by
  rw [classifyMsgs]
  repeat' split
  all_goals simp [List.filter_cons, List.filter_nil, hp]

theorem replIteration_some_fst (cfg : Cfg) (optind cbOptind : Int)
    (line : String) :
    (replIteration cfg optind (some line) cbOptind).1 =
      Event.readLine (renderPrompt cfg.prompt cfg.pwd)
        :: Event.historyAdd line
        :: saveEvents cfg.historySavePath
        ++ Event.dispatch line
        :: (espConsoleRun cfg.registry line).2.2
        ++ Event.resetOptind
        :: classifyMsgs (espConsoleRun cfg.registry line).1
             (espConsoleRun cfg.registry line).2.1
        ++ [Event.freeLine] :=
  rfl

theorem replIteration_some_snd (cfg : Cfg) (optind cbOptind : Int)
    (line : String) :
    (replIteration cfg optind (some line) cbOptind).2 = 0 :=
  rfl

theorem replIteration_zero_snd (cfg : Cfg) (cbOptind : Int)
    (input : Option String) :
    (replIteration cfg 0 input cbOptind).2 = 0 := by
  cases input <;> rfl

theorem printsOf_iteration (cfg : Cfg) (optind cbOptind : Int)
    (line : String) :
    printsOf (replIteration cfg optind (some line) cbOptind).1 =
      classifyMsgs (espConsoleRun cfg.registry line).1
        (espConsoleRun cfg.registry line).2.1 := by
  have hs := saveEvents_filter cfg.historySavePath isPrint (fun _ => rfl)
  have hc := espConsoleRun_filter cfg.registry line isPrint (fun _ _ => rfl)
  have hm := List.filter_eq_self.mpr
    (classifyMsgs_all_print (espConsoleRun cfg.registry line).1
      (espConsoleRun cfg.registry line).2.1)
  rw [replIteration_some_fst]
  unfold printsOf
  simp [List.filter_cons, List.filter_append, List.filter_nil, isPrint,
        hs, hc, hm]

theorem callbacksOf_iteration (cfg : Cfg) (optind cbOptind : Int)
    (line : String) :
    callbacksOf (replIteration cfg optind (some line) cbOptind).1 =
      (espConsoleRun cfg.registry line).2.2 := by
  have hs := saveEvents_filter cfg.historySavePath isRunCallback
    (fun _ => rfl)
  have hm := classifyMsgs_filter (espConsoleRun cfg.registry line).1
    (espConsoleRun cfg.registry line).2.1 isRunCallback (fun _ => rfl)
  have hc := List.filter_eq_self.mpr
    (espConsoleRun_all_callback cfg.registry line)
  rw [replIteration_some_fst]
  unfold callbacksOf
  simp [List.filter_cons, List.filter_append, List.filter_nil,
        isRunCallback, hs, hc, hm]

theorem historyAddsOf_iteration (cfg : Cfg) (optind cbOptind : Int)
    (line : String) :
    historyAddsOf (replIteration cfg optind (some line) cbOptind).1 =
      [Event.historyAdd line] := by
  have hs := saveEvents_filter cfg.historySavePath isHistoryAdd
    (fun _ => rfl)
  have hc := espConsoleRun_filter cfg.registry line isHistoryAdd
    (fun _ _ => rfl)
  have hm := classifyMsgs_filter (espConsoleRun cfg.registry line).1
    (espConsoleRun cfg.registry line).2.1 isHistoryAdd (fun _ => rfl)
  rw [replIteration_some_fst]
  unfold historyAddsOf
  simp [List.filter_cons, List.filter_append, List.filter_nil,
        isHistoryAdd, hs, hc, hm]

theorem historySavesOf_iteration (cfg : Cfg) (optind cbOptind : Int)
    (line : String) :
    historySavesOf (replIteration cfg optind (some line) cbOptind).1 =
      saveEvents cfg.historySavePath := by
  have hs := List.filter_eq_self.mpr
    (saveEvents_all_save cfg.historySavePath)
  have hc := espConsoleRun_filter cfg.registry line isHistorySave
    (fun _ _ => rfl)
  have hm := classifyMsgs_filter (espConsoleRun cfg.registry line).1
    (espConsoleRun cfg.registry line).2.1 isHistorySave (fun _ => rfl)
  rw [replIteration_some_fst]
  unfold historySavesOf
  simp [List.filter_cons, List.filter_append, List.filter_nil,
        isHistorySave, hs, hc, hm]

theorem resetsOf_iteration (cfg : Cfg) (optind cbOptind : Int)
    (line : String) :
    resetsOf (replIteration cfg optind (some line) cbOptind).1 =
      [Event.resetOptind] := by
  have hs := saveEvents_filter cfg.historySavePath isReset (fun _ => rfl)
  have hc := espConsoleRun_filter cfg.registry line isReset (fun _ _ => rfl)
  have hm := classifyMsgs_filter (espConsoleRun cfg.registry line).1
    (espConsoleRun cfg.registry line).2.1 isReset (fun _ => rfl)
  rw [replIteration_some_fst]
  unfold resetsOf
  simp [List.filter_cons, List.filter_append, List.filter_nil,
        isReset, hs, hc, hm]

theorem readsOf_iteration (cfg : Cfg) (optind cbOptind : Int)
    (line : String) :
    readsOf (replIteration cfg optind (some line) cbOptind).1 =
      [Event.readLine (renderPrompt cfg.prompt cfg.pwd)] := by
  have hs := saveEvents_filter cfg.historySavePath isReadLine (fun _ => rfl)
  have hc := espConsoleRun_filter cfg.registry line isReadLine
    (fun _ _ => rfl)
  have hm := classifyMsgs_filter (espConsoleRun cfg.registry line).1
    (espConsoleRun cfg.registry line).2.1 isReadLine (fun _ => rfl)
  rw [replIteration_some_fst]
  unfold readsOf
  simp [List.filter_cons, List.filter_append, List.filter_nil,
        isReadLine, hs, hc, hm]

theorem replRun_cons (cfg : Cfg) (optind : Int) (l : Option String)
    (co : Int) (rest : List (Option String × Int)) :
    replRun cfg optind ((l, co) :: rest) =
      (replIteration cfg optind l co).1 ++
        replRun cfg (replIteration cfg optind l co).2 rest :=
  rfl

theorem iterationStartStates_zero (cfg : Cfg) :
    ∀ inputs : List (Option String × Int),
      ∀ v ∈ iterationStartStates cfg 0 inputs, v = 0 := by
  intro inputs
  induction inputs with
  | nil => intro v hv; cases hv
  | cons i rest ih =>
    intro v hv
    rcases i with ⟨l, co⟩
    rw [iterationStartStates, replIteration_zero_snd] at hv
    rcases List.mem_cons.mp hv with h | h
    · exact h
    · exact ih v h

theorem all_false_of_filter_nil {p : Event → Bool} {l : List Event}
    (h : l.filter p = []) : ∀ e ∈ l, p e = false := by
  intro e he
  cases hpe : p e
  · rfl
  · exact absurd hpe (List.filter_eq_nil_iff.mp h e he)

theorem tokensAux_nil_of_ws :
    ∀ l : List Char, (∀ c ∈ l, isWs c = true) → tokensAux l [] = [] := by
  intro l
  induction l with
  | nil => intro _; rfl
  | cons c rest ih =>
    intro h
    have hc : isWs c = true := h c (List.mem_cons_self c rest)
    simp only [tokensAux, hc, if_true, List.isEmpty_nil, ite_true]
    exact ih (fun c' hc' => h c' (List.mem_cons_of_mem _ hc'))

theorem tokenize_nil_of_ws (line : String)
    (h : ∀ c ∈ line.toList, isWs c = true) : tokenize line = [] :=
  tokensAux_nil_of_ws line.toList h

theorem espConsoleRun_empty (reg : List (String × Callback)) (line : String)
    (htok : tokenize line = []) :
    espConsoleRun reg line = (EspErr.invalidArg, 0, []) := by
  simp [espConsoleRun, htok]

theorem espConsoleRun_notFound (reg : List (String × Callback))
    (line cmd : String) (rest : List String)
    (htok : tokenize line = cmd :: rest) (hreg : ∀ p ∈ reg, p.1 ≠ cmd) :
    espConsoleRun reg line = (EspErr.notFound, 0, []) := by
  have hf : List.find? (fun p => p.1 == cmd) reg = none :=
    List.find?_eq_none.mpr (by intro x hx; simpa using hreg x hx)
  simp [espConsoleRun, htok, hf]

theorem espConsoleRun_found (reg : List (String × Callback))
    (line cmd : String) (rest : List String) (pr : String × Callback)
    (htok : tokenize line = cmd :: rest)
    (hf : List.find? (fun p => p.1 == cmd) reg = some pr) :
    espConsoleRun reg line =
      (EspErr.ok, pr.2 (cmd :: rest),
       [Event.runCallback cmd (cmd :: rest)]) := by
  simp [espConsoleRun, htok, hf]

theorem classifyMsgs_notFound (ret : Int) :
    classifyMsgs EspErr.notFound ret =
      [Event.print "Unrecognized command\n"] := by
  simp [classifyMsgs]

theorem classifyMsgs_invalidArg (ret : Int) :
    classifyMsgs EspErr.invalidArg ret = [] := by
  simp [classifyMsgs]

theorem classifyMsgs_ok_nonzero (ret : Int) (h : ret ≠ 0) :
    classifyMsgs EspErr.ok ret = [Event.print (nonZeroMsg ret)] := by
  simp [classifyMsgs, h]

theorem toList_append (a b : String) :
    (a ++ b).toList = a.toList ++ b.toList :=
  rfl

/-- C1: After every dispatch cycle, whatever its outcome, the shared
argument-parsing cursor `optind` is reset to its initial value 0; the reset
appears exactly once in the iteration's trace, strictly after the dispatch
step and with no further line read in the iteration (the only read is the
iteration's opening one); and in any run started with the cursor at its
initial value, every loop iteration — hence every command invocation —
begins with the cursor at 0. -/
theorem optind_reset_each_cycle (cfg : Cfg) (optind cbOptind : Int)
    (line : String) :
    resetsOf (replIteration cfg optind (some line) cbOptind).1 =
      [Event.resetOptind] ∧
    (replIteration cfg optind (some line) cbOptind).2 = 0 ∧
    readsOf (replIteration cfg optind (some line) cbOptind).1 =
      [Event.readLine (renderPrompt cfg.prompt cfg.pwd)] ∧
    (∃ pre post,
      (replIteration cfg optind (some line) cbOptind).1 =
        pre ++ Event.dispatch line ::
          ((espConsoleRun cfg.registry line).2.2 ++
            Event.resetOptind :: post) ∧
      (∀ e ∈ pre, isReset e = false) ∧
      (∀ e ∈ post, isReset e = false ∧ isReadLine e = false)) ∧
    (∀ inputs : List (Option String × Int),
      ∀ v ∈ iterationStartStates cfg 0 inputs, v = 0) := by
  refine ⟨resetsOf_iteration cfg optind cbOptind line,
          replIteration_some_snd cfg optind cbOptind line,
          readsOf_iteration cfg optind cbOptind line, ?_,
          iterationStartStates_zero cfg⟩
  refine ⟨Event.readLine (renderPrompt cfg.prompt cfg.pwd)
            :: Event.historyAdd line :: saveEvents cfg.historySavePath,
          classifyMsgs (espConsoleRun cfg.registry line).1
              (espConsoleRun cfg.registry line).2.1 ++ [Event.freeLine],
          ?_, ?_, ?_⟩
  · rw [replIteration_some_fst]
    simp
  · intro e he
    rcases List.mem_cons.mp he with h | h
    · rw [h]; rfl
    rcases List.mem_cons.mp h with h2 | h2
    · rw [h2]; rfl
    · exact all_false_of_filter_nil
        (saveEvents_filter cfg.historySavePath isReset (fun _ => rfl)) e h2
  · intro e he
    rcases List.mem_append.mp he with h | h
    · exact ⟨all_false_of_filter_nil
          (classifyMsgs_filter _ _ isReset (fun _ => rfl)) e h,
        all_false_of_filter_nil
          (classifyMsgs_filter _ _ isReadLine (fun _ => rfl)) e h⟩
    · have he2 := List.mem_singleton.mp h
      rw [he2]
      exact ⟨rfl, rfl⟩

/-- Witness for C1 at a concrete configuration and line. -/
theorem optind_reset_each_cycle_w :
    resetsOf (replIteration cfgW 0 (some "boom") 5).1 =
      [Event.resetOptind] ∧
    (replIteration cfgW 0 (some "boom") 5).2 = 0 ∧
    (0 : Int) = 0 :=
  ⟨(optind_reset_each_cycle cfgW 0 5 "boom").1,
   (optind_reset_each_cycle cfgW 0 5 "boom").2.1,
   (optind_reset_each_cycle cfgW 0 5 "boom").2.2.2.2
     [(some "boom", 5)] 0 (by decide)⟩

/-- C2: A line whose leading token matches no registered command name
yields the not-found classification; the iteration prints exactly the
one unrecognized-command message, and invokes no command callback. -/
theorem unrecognized_command_classification (cfg : Cfg)
    (optind cbOptind : Int) (line cmd : String) (rest : List String)
    (htok : tokenize line = cmd :: rest)
    (hreg : ∀ p ∈ cfg.registry, p.1 ≠ cmd) :
    (espConsoleRun cfg.registry line).1 = EspErr.notFound ∧
    printsOf (replIteration cfg optind (some line) cbOptind).1 =
      [Event.print "Unrecognized command\n"] ∧
    callbacksOf (replIteration cfg optind (some line) cbOptind).1 = [] := by
  have hrun := espConsoleRun_notFound cfg.registry line cmd rest htok hreg
  refine ⟨by rw [hrun], ?_, ?_⟩
  · rw [printsOf_iteration, hrun]
    exact classifyMsgs_notFound 0
  · rw [callbacksOf_iteration, hrun]

/-- Witness for C2: the line `nope` against the concrete registry that
holds only `boom`. -/
theorem unrecognized_command_classification_w :
    printsOf (replIteration cfgW 0 (some "nope") 5).1 =
      [Event.print "Unrecognized command\n"] ∧
    callbacksOf (replIteration cfgW 0 (some "nope") 5).1 = [] :=
  ⟨(unrecognized_command_classification cfgW 0 5 "nope" "nope" []
      (by decide) (by decide)).2.1,
   (unrecognized_command_classification cfgW 0 5 "nope" "nope" []
      (by decide) (by decide)).2.2⟩

/-- C3: When the matched callback returns a non-zero status, the iteration
prints exactly one message, which contains the hex rendering of the
numeric code and its symbolic name, and the loop proceeds to run the rest
of the schedule (the non-zero status does not terminate the loop). -/
theorem nonzero_status_message_and_loop (cfg : Cfg) (optind cbOptind : Int)
    (line cmd : String) (rest : List String) (pr : String × Callback)
    (htok : tokenize line = cmd :: rest)
    (hf : List.find? (fun p => p.1 == cmd) cfg.registry = some pr)
    (hret : pr.2 (cmd :: rest) ≠ 0) :
    printsOf (replIteration cfg optind (some line) cbOptind).1 =
      [Event.print (nonZeroMsg (pr.2 (cmd :: rest)))] ∧
    (hexStr (pr.2 (cmd :: rest))).toList <:+:
      (nonZeroMsg (pr.2 (cmd :: rest))).toList ∧
    (espErrToName (pr.2 (cmd :: rest))).toList <:+:
      (nonZeroMsg (pr.2 (cmd :: rest))).toList ∧
    ∀ later : List (Option String × Int),
      replRun cfg optind ((some line, cbOptind) :: later) =
        (replIteration cfg optind (some line) cbOptind).1 ++
          replRun cfg 0 later := by
  have hrun := espConsoleRun_found cfg.registry line cmd rest pr htok hf
  refine ⟨?_, ?_, ?_, ?_⟩
  · rw [printsOf_iteration, hrun]
    exact classifyMsgs_ok_nonzero _ hret
  · exact ⟨"Command returned non-zero error code: 0x".toList,
      (" (" ++ espErrToName (pr.2 (cmd :: rest)) ++ ")\n").toList,
      by simp [nonZeroMsg, toList_append, List.append_assoc]⟩
  · exact ⟨("Command returned non-zero error code: 0x" ++
        hexStr (pr.2 (cmd :: rest)) ++ " (").toList,
      ")\n".toList,
      by simp [nonZeroMsg, toList_append, List.append_assoc]⟩
  · intro later
    rw [replRun_cons, replIteration_some_snd]

/-- Witness for C3: the registered command `boom` whose callback returns 7. -/
theorem nonzero_status_message_and_loop_w :
    printsOf (replIteration cfgW 0 (some "boom") 5).1 =
      [Event.print (nonZeroMsg 7)] ∧
    replRun cfgW 0 [(some "boom", 5)] =
      (replIteration cfgW 0 (some "boom") 5).1 ++ replRun cfgW 0 [] :=
  ⟨(nonzero_status_message_and_loop cfgW 0 5 "boom" "boom" []
      ("boom", fun _ => 7) (by decide) rfl (by decide)).1,
   (nonzero_status_message_and_loop cfgW 0 5 "boom" "boom" []
      ("boom", fun _ => 7) (by decide) rfl (by decide)).2.2.2 []⟩

/-- C5: A NULL read is skipped with no action, and a whitespace-only line
is classified as empty: no message is printed, no callback is invoked, no
history entry beyond the literal text is added, and the loop continues
with the rest of the schedule. -/
theorem empty_line_no_action (cfg : Cfg) (optind cbOptind : Int)
    (line : String) (hws : ∀ c ∈ line.toList, isWs c = true) :
    (replIteration cfg optind none cbOptind).1 =
      [Event.readLine (renderPrompt cfg.prompt cfg.pwd)] ∧
    (replIteration cfg optind none cbOptind).2 = optind ∧
    (espConsoleRun cfg.registry line).1 = EspErr.invalidArg ∧
    printsOf (replIteration cfg optind (some line) cbOptind).1 = [] ∧
    callbacksOf (replIteration cfg optind (some line) cbOptind).1 = [] ∧
    historyAddsOf (replIteration cfg optind (some line) cbOptind).1 =
      [Event.historyAdd line] ∧
    ∀ later : List (Option String × Int),
      replRun cfg optind ((some line, cbOptind) :: later) =
        (replIteration cfg optind (some line) cbOptind).1 ++
          replRun cfg 0 later := by
  have hrun := espConsoleRun_empty cfg.registry line
    (tokenize_nil_of_ws line hws)
  refine ⟨rfl, rfl, by rw [hrun], ?_, ?_, ?_, ?_⟩
  · rw [printsOf_iteration, hrun]
    exact classifyMsgs_invalidArg 0
  · rw [callbacksOf_iteration, hrun]
  · exact historyAddsOf_iteration cfg optind cbOptind line
  · intro later
    rw [replRun_cons, replIteration_some_snd]

/-- Witness for C5 at the whitespace-only line of three blanks. -/
theorem empty_line_no_action_w :
    printsOf (replIteration cfgW 0 (some "   ") 5).1 = [] ∧
    callbacksOf (replIteration cfgW 0 (some "   ") 5).1 = [] ∧
    historyAddsOf (replIteration cfgW 0 (some "   ") 5).1 =
      [Event.historyAdd "   "] :=
  ⟨(empty_line_no_action cfgW 0 5 "   " (by decide)).2.2.2.1,
   (empty_line_no_action cfgW 0 5 "   " (by decide)).2.2.2.2.1,
   (empty_line_no_action cfgW 0 5 "   " (by decide)).2.2.2.2.2.1⟩

theorem promptReplace_id (rep : List Char) :
    ∀ s, hasPwdTok s = false → promptReplace rep s = s := by
  intro s
  induction s using hasPwdTok.induct with
  | case1 rest => intro h; rw [hasPwdTok] at h; cases h
  | case2 c rest hne ih =>
    intro h
    rw [hasPwdTok] at h
    case case2.x_1 => exact hne
    rw [promptReplace]
    case case2.x_1 => exact hne
    rw [ih h]
  | case3 => intro h; rfl

theorem renderPrompt_id (template pwd : String)
    (h : hasPwdTok template.toList = false) :
    renderPrompt template pwd = template := by
  unfold renderPrompt
  rw [promptReplace_id pwd.toList template.toList h]
  rfl

theorem loadEvents_filter (o : Option String) (p : Event → Bool)
    (hp : ∀ s, p (Event.historyLoad s) = false) :
    (loadEvents o).filter p = [] := by
  cases o <;> simp [loadEvents, List.filter_cons, List.filter_nil, hp]

theorem loadEvents_all_load (o : Option String) :
    ∀ e ∈ loadEvents o, isHistoryLoad e = true := by
  cases o <;> simp [loadEvents, isHistoryLoad]

theorem reopenIte_filter (c : Prop) [Decidable c] (path : String)
    (p : Event → Bool) (hp : ∀ s, p (Event.reopenStdStreams s) = false) :
    (if c then [Event.reopenStdStreams path] else []).filter p = [] := by
  split <;> simp [List.filter_cons, List.filter_nil, hp]

theorem beginCommon_filter_reopen (cfg : Cfg) :
    (beginCommonTrace cfg).filter isReopen = [] := by
  have hl := loadEvents_filter cfg.historySavePath isReopen (fun _ => rfl)
  simp [beginCommonTrace, List.filter_append, List.filter_cons,
        List.filter_nil, isReopen, hl]

theorem beginCommon_filter_load (cfg : Cfg) :
    (beginCommonTrace cfg).filter isHistoryLoad =
      loadEvents cfg.historySavePath := by
  have hl := List.filter_eq_self.mpr (loadEvents_all_load cfg.historySavePath)
  simp [beginCommonTrace, List.filter_append, List.filter_cons,
        List.filter_nil, isHistoryLoad, hl]

/-- C4: Startup with a channel index at or above the platform's UART count
fails validation: only the error is logged, nothing else is configured and
the REPL worker task is not created; any in-range channel index proceeds
to create the worker task. -/
theorem begin_channel_validation (socUartNum defaultChannel channel : Nat)
    (cfg : Cfg) :
    (socUartNum ≤ channel →
      begin socUartNum defaultChannel cfg channel =
        [Event.logError (invalidChannelMsg socUartNum)] ∧
      Event.createReplTask ∉ begin socUartNum defaultChannel cfg channel) ∧
    (channel < socUartNum →
      Event.createReplTask ∈ begin socUartNum defaultChannel cfg channel) := by
  constructor
  · intro h
    have hb : begin socUartNum defaultChannel cfg channel =
        [Event.logError (invalidChannelMsg socUartNum)] := by
      rw [begin, if_pos h]
    refine ⟨hb, ?_⟩
    rw [hb]
    simp
  · intro h
    rw [begin, if_neg (by omega)]
    simp

/-- Witness for C4: with three UARTs, channel 3 (the maximum itself) fails
validation and creates no task, while channel 1 creates the task. -/
theorem begin_channel_validation_w :
    begin 3 0 cfgW 3 = [Event.logError (invalidChannelMsg 3)] ∧
    Event.createReplTask ∉ begin 3 0 cfgW 3 ∧
    Event.createReplTask ∈ begin 3 0 cfgW 1 :=
  ⟨((begin_channel_validation 3 0 3 cfgW).1 (by decide)).1,
   ((begin_channel_validation 3 0 3 cfgW).1 (by decide)).2,
   (begin_channel_validation 3 0 1 cfgW).2 (by decide)⟩

/-- C6: Prompt rendering substitutes the working directory for the literal
`%pwd%` token — template `"%pwd% > "` with directory `/data` renders as
`"/data > "`; rendering a template without the token is the identity; and
each displayed prompt (the first event of every loop iteration) is the
rendered one. -/
theorem prompt_substitution :
    renderPrompt "%pwd% > " "/data" = "/data > " ∧
    (∀ template pwd : String, hasPwdTok template.toList = false →
      renderPrompt template pwd = template) ∧
    (∀ cfg : Cfg, ∀ optind cbOptind : Int, ∀ input : Option String,
      (replIteration cfg optind input cbOptind).1.head? =
        some (Event.readLine (renderPrompt cfg.prompt cfg.pwd))) := by
  refine ⟨by decide, fun template pwd h => renderPrompt_id template pwd h, ?_⟩
  intro cfg optind cbOptind input
  cases input <;> rfl

/-- Witness for C6: a template with no `%pwd%` token renders unchanged. -/
theorem prompt_substitution_w :
    renderPrompt "uart> " "/data" = "uart> " ∧
    renderPrompt "%pwd% > " "/data" = "/data > " :=
  ⟨prompt_substitution.2.1 "uart> " "/data" (by decide),
   prompt_substitution.1⟩

/-- C7: With a configured history path, startup reads the history file
exactly once and every iteration that accepts a line writes it exactly
once; with no configured path, startup reads no history file and no
iteration writes one. -/
theorem history_persistence (socUartNum defaultChannel channel : Nat)
    (cfg : Cfg) (p : String) :
    (cfg.historySavePath = some p → channel < socUartNum →
      historyLoadsOf (begin socUartNum defaultChannel cfg channel) =
        [Event.historyLoad p]) ∧
    (cfg.historySavePath = some p →
      ∀ optind cbOptind : Int, ∀ line : String,
        historySavesOf (replIteration cfg optind (some line) cbOptind).1 =
          [Event.historySave p]) ∧
    (cfg.historySavePath = none →
      historyLoadsOf (begin socUartNum defaultChannel cfg channel) = [] ∧
      ∀ optind cbOptind : Int, ∀ input : Option String,
        historySavesOf (replIteration cfg optind input cbOptind).1 = []) := by
  refine ⟨?_, ?_, ?_⟩
  · intro hp h
    rw [begin, if_neg (by omega)]
    unfold historyLoadsOf
    have hr := reopenIte_filter (channel ≠ defaultChannel)
      (uartPath channel) isHistoryLoad (fun _ => rfl)
    simp [List.filter_append, List.filter_cons, List.filter_nil,
          isHistoryLoad, hr, beginCommon_filter_load, loadEvents, hp]
  · intro hp optind cbOptind line
    rw [historySavesOf_iteration]
    simp [saveEvents, hp]
  · intro hn
    constructor
    · rw [begin]
      split
      · rfl
      unfold historyLoadsOf
      have hr := reopenIte_filter (channel ≠ defaultChannel)
        (uartPath channel) isHistoryLoad (fun _ => rfl)
      simp [List.filter_append, List.filter_cons, List.filter_nil,
            isHistoryLoad, hr, beginCommon_filter_load, loadEvents, hn]
    · intro optind cbOptind input
      cases input with
      | none => rfl
      | some line =>
        rw [historySavesOf_iteration]
        simp [saveEvents, hn]

/-- Witness for C7 with the configured path of `cfgW` and the absent path
of `cfgN`. -/
theorem history_persistence_w :
    historyLoadsOf (begin 3 0 cfgW 1) =
      [Event.historyLoad "/spiffs/history.txt"] ∧
    historySavesOf (replIteration cfgW 0 (some "boom") 5).1 =
      [Event.historySave "/spiffs/history.txt"] ∧
    historyLoadsOf (begin 3 0 cfgN 1) = [] :=
  ⟨(history_persistence 3 0 1 cfgW "/spiffs/history.txt").1 rfl (by decide),
   (history_persistence 3 0 1 cfgW "/spiffs/history.txt").2.1 rfl 0 5 "boom",
   ((history_persistence 3 0 1 cfgN "x").2.2 rfl).1⟩

/-- C8 counterexample: in the concrete dispatching iteration on line
`foo`, the classification message is printed strictly before the line's
backing storage is released, so the claimed order (storage released
before the outcome is classified and printed) is false on this input. -/
theorem free_before_print_false :
    Event.print "Unrecognized command\n" ∈
      (replIteration cfgN 0 (some "foo") 5).1 ∧
    Event.freeLine ∈ (replIteration cfgN 0 (some "foo") 5).1 ∧
    List.indexOf (Event.print "Unrecognized command\n")
        (replIteration cfgN 0 (some "foo") 5).1 <
      List.indexOf Event.freeLine (replIteration cfgN 0 (some "foo") 5).1 := by
  decide

/-- C8 (amended): in every iteration that dispatches a real line the steps
occur in this order — dispatch returns, then the State Resetter runs, then
the outcome is classified and the appropriate message printed, then the
line's backing storage is released, then control loops back to read the
next line. -/
theorem iteration_step_order (cfg : Cfg) (optind cbOptind : Int)
    (line : String) :
    ∃ pre cbs msgs,
      (replIteration cfg optind (some line) cbOptind).1 =
        pre ++ Event.dispatch line :: cbs ++ Event.resetOptind ::
          msgs ++ [Event.freeLine] ∧
      (∀ e ∈ cbs, isRunCallback e = true) ∧
      (∀ e ∈ msgs, isPrint e = true) ∧
      ∀ later : List (Option String × Int),
        replRun cfg optind ((some line, cbOptind) :: later) =
          (replIteration cfg optind (some line) cbOptind).1 ++
            replRun cfg 0 later := by
  refine ⟨Event.readLine (renderPrompt cfg.prompt cfg.pwd)
            :: Event.historyAdd line :: saveEvents cfg.historySavePath,
          (espConsoleRun cfg.registry line).2.2,
          classifyMsgs (espConsoleRun cfg.registry line).1
            (espConsoleRun cfg.registry line).2.1,
          ?_, espConsoleRun_all_callback cfg.registry line,
          classifyMsgs_all_print _ _, ?_⟩
  · simp [replIteration_some_fst]
  · intro later
    simp [replRun_cons, replIteration_some_snd]

/-- Witness for C8's amended order at a concrete iteration. -/
theorem iteration_step_order_w :
    ∃ pre cbs msgs,
      (replIteration cfgN 0 (some "foo") 5).1 =
        pre ++ Event.dispatch "foo" :: cbs ++ Event.resetOptind ::
          msgs ++ [Event.freeLine] ∧
      (∀ e ∈ cbs, isRunCallback e = true) ∧
      (∀ e ∈ msgs, isPrint e = true) ∧
      ∀ later : List (Option String × Int),
        replRun cfgN 0 ((some "foo", 5) :: later) =
          (replIteration cfgN 0 (some "foo") 5).1 ++ replRun cfgN 0 later :=
  iteration_step_order cfgN 0 5 "foo"

/-- C9: With a valid channel differing from the compiled-in default, the
startup trace reopens the standard streams exactly once, on the device
path derived from the channel index; with the default channel, or with an
invalid channel, no reopening occurs; and for single-digit channels the
derived path is `/dev/uart/` followed by the channel number. -/
theorem device_redirection (socUartNum defaultChannel channel : Nat)
    (cfg : Cfg) :
    (channel < socUartNum → channel ≠ defaultChannel →
      reopensOf (begin socUartNum defaultChannel cfg channel) =
        [Event.reopenStdStreams (uartPath channel)]) ∧
    (channel = defaultChannel →
      reopensOf (begin socUartNum defaultChannel cfg channel) = []) ∧
    (socUartNum ≤ channel →
      reopensOf (begin socUartNum defaultChannel cfg channel) = []) ∧
    (channel < 10 → uartPath channel = "/dev/uart/" ++ toString channel) := by
  refine ⟨?_, ?_, ?_, ?_⟩
  · intro h hne
    rw [begin, if_neg (by omega)]
    unfold reopensOf
    simp [List.filter_append, List.filter_cons, List.filter_nil, isReopen,
          beginCommon_filter_reopen, hne]
  · intro h
    rw [begin]
    split
    · rfl
    unfold reopensOf
    simp [List.filter_append, List.filter_cons, List.filter_nil, isReopen,
          beginCommon_filter_reopen, h]
  · intro h
    rw [begin, if_pos h]
    rfl
  · intro h
    interval_cases channel <;> decide

/-- Witness for C9: channel 1 with default channel 0 redirects to
`/dev/uart/1`; channel 0 (the default) does not redirect. -/
theorem device_redirection_w :
    reopensOf (begin 3 0 cfgW 1) =
      [Event.reopenStdStreams (uartPath 1)] ∧
    reopensOf (begin 3 0 cfgW 0) = [] ∧
    uartPath 1 = "/dev/uart/" ++ toString 1 :=
  ⟨(device_redirection 3 0 1 cfgW).1 (by decide) (by decide),
   (device_redirection 3 0 0 cfgW).2.1 rfl,
   (device_redirection 3 0 1 cfgW).2.2.2 (by decide)⟩

/-- C10: Every non-null line — whatever its content — is appended to
history, and written to the configured history path when one is set,
before the dispatch step of the iteration. -/
theorem history_before_dispatch (cfg : Cfg) (optind cbOptind : Int)
    (line : String) :
    ∃ pre tail,
      (replIteration cfg optind (some line) cbOptind).1 =
        pre ++ Event.dispatch line :: tail ∧
      Event.historyAdd line ∈ pre ∧
      (∀ p, cfg.historySavePath = some p → Event.historySave p ∈ pre) ∧
      historyAddsOf (replIteration cfg optind (some line) cbOptind).1 =
        [Event.historyAdd line] := by
  refine ⟨Event.readLine (renderPrompt cfg.prompt cfg.pwd)
            :: Event.historyAdd line :: saveEvents cfg.historySavePath,
          (espConsoleRun cfg.registry line).2.2 ++ Event.resetOptind ::
            classifyMsgs (espConsoleRun cfg.registry line).1
              (espConsoleRun cfg.registry line).2.1 ++ [Event.freeLine],
          ?_, by simp, ?_, historyAddsOf_iteration cfg optind cbOptind line⟩
  · rw [replIteration_some_fst]
    simp
  · intro p hp
    simp [saveEvents, hp]

/-- Witness for C10: on line `boom` with the configured history path of
`cfgW`, both the history append and the history write precede dispatch. -/
theorem history_before_dispatch_w :
    Event.historyAdd "boom" ∈ (replIteration cfgW 0 (some "boom") 5).1 ∧
    Event.historySave "/spiffs/history.txt" ∈
      (replIteration cfgW 0 (some "boom") 5).1 := by
  obtain ⟨pre, tail, heq, hadd, hsave, _⟩ :=
    history_before_dispatch cfgW 0 5 "boom"
  rw [heq]
  exact ⟨List.mem_append.mpr (Or.inl hadd),
         List.mem_append.mpr (Or.inl (hsave "/spiffs/history.txt" rfl))⟩

end ESP32Console
